import Mathlib

/-!
# The Rackspace host driver (`hosts/drivers/rackspace/rackspace.go`)

A shallow embedding of the driver's operation surface.  The driver is a record
of strings mutated by its methods; everything outside the driver (the provider
API, the local key generator, the file system, the remote shell, the random
identifier source) is an environment `Env` whose answers may depend on the
whole history of calls made so far.  Every method takes the history and returns
the value the Go method returns, the driver record afterwards and the history
afterwards.  Logging calls (`log.Debugf`, `log.Infof`) have no effect on the
record or on the collaborators and are left out.
-/

namespace rackspace

/-- A Go `error` is identified with its message; `nil` is `none` in an `Option Error`. -/
abbrev Error := String

/-- The Go `errors.New`. -/
def errors.New (text : String) : Error := text

namespace state

/-- Modelled from the spec: the declaration of `state.State` (package
`hosts/state`) is not part of the sources at hand; the enumeration is the
spec's Normalized Lifecycle State. -/
inductive State where
  | None
  | Starting
  | Running
  | Paused
  | Stopped
  | Error
deriving DecidableEq, Repr

end state

namespace gophercloud

/-- The string fields of `gophercloud.ProviderClient` (`provider_client.go`);
the `EndpointLocator` function value plays no part in the driver. -/
structure ProviderClient where
  IdentityBase : String
  IdentityEndpoint : String
  TokenID : String
deriving DecidableEq, Repr

/-- Modelled from the spec: the declaration of `gophercloud.ServiceClient` is
not part of the sources at hand; it is the spec's Provider Handle, "an
authenticated session object used for all calls to the provider's control-plane
API": the provider client it was made from and the endpoint it talks to. -/
structure ServiceClient where
  Provider : ProviderClient
  Endpoint : String
deriving DecidableEq, Repr

/-- The fields of `gophercloud.AuthOptions` the driver fills in (the
declaration itself is not part of the sources at hand). -/
structure AuthOptions where
  Username : String
  APIKey : String
deriving DecidableEq, Repr

/-- The field of `gophercloud.EndpointOpts` the driver fills in (the
declaration itself is not part of the sources at hand). -/
structure EndpointOpts where
  Region : String
deriving DecidableEq, Repr

end gophercloud

open gophercloud

namespace oskey

/-- The fields of `keypairs.CreateOpts` the driver fills in (the declaration
itself is not part of the sources at hand). -/
structure CreateOpts where
  Name : String
  PublicKey : String
deriving DecidableEq, Repr

/-- The field of the provider's key pair answer the driver reads (the
declaration itself is not part of the sources at hand). -/
structure KeyPair where
  Name : String
deriving DecidableEq, Repr

end oskey

namespace osdisk

/-- Modelled from the spec: the declaration of the `diskconfig` modes is not
part of the sources at hand; `Manual` is the "disk-config mode" the driver
names, `Auto` stands for any other mode. -/
inductive DiskConfig where
  | Auto
  | Manual
deriving DecidableEq, Repr

end osdisk

namespace osservers

/-- Modelled from the spec: the declaration of the reboot modes is not part of
the sources at hand; `SoftReboot` is the mode of the "soft-reboot request" the
driver names, `HardReboot` stands for any other mode. -/
inductive RebootMethod where
  | SoftReboot
  | HardReboot
deriving DecidableEq, Repr

/-- The fields of the provider's server answer the driver reads (the
declaration itself is not part of the sources at hand). -/
structure Server where
  ID : String
  Status : String
  AccessIPv4 : String
deriving DecidableEq, Repr

end osservers

namespace servers

/-- The fields of `servers.CreateOpts` the driver fills in (the declaration
itself is not part of the sources at hand). -/
structure CreateOpts where
  Name : String
  ImageRef : String
  FlavorRef : String
  KeyPair : String
  DiskConfig : osdisk.DiskConfig
deriving DecidableEq, Repr

end servers

namespace exec

/-- The command built by `ssh.GetSSHCommand(host, port, user, keyPath, args...)`,
kept as the arguments it was built from. -/
structure Cmd where
  Host : String
  Port : Nat
  User : String
  KeyPath : String
  Args : List String
deriving DecidableEq, Repr

end exec

/-- The driver record (`type Driver struct`). -/
structure Driver where
  Username : String
  APIKey : String
  Region : String
  ImageID : String
  FlavorID : String
  KeyPairName : String
  storePath : String
  Basename : String
  ServerID : String
  ServerIPAddr : String
deriving DecidableEq, Repr

/-- The option values handed to `SetConfigFromFlags` (`type CreateFlags struct`,
each pointer read through). -/
structure CreateFlags where
  Username : String
  APIKey : String
  Region : String
  ImageID : String
  FlavorID : String
deriving DecidableEq, Repr

/-- One call the driver makes to a collaborator, with its arguments. -/
inductive Call where
  | GenerateRandomID
  | AuthenticatedClient (ao : AuthOptions)
  | NewComputeV2 (providerClient : ProviderClient) (eo : EndpointOpts)
  | GenerateSSHKey (path : String)
  | ReadFile (path : String)
  | keypairsCreate (client : ServiceClient) (opts : oskey.CreateOpts)
  | keypairsDelete (client : ServiceClient) (name : String)
  | serversCreate (client : ServiceClient) (opts : servers.CreateOpts)
  | serversGet (client : ServiceClient) (id : String)
  | serversDelete (client : ServiceClient) (id : String)
  | serversReboot (client : ServiceClient) (id : String) (how : osservers.RebootMethod)
  | WaitForStatus (client : ServiceClient) (id : String) (status : String) (secs : Nat)
  | Run (cmd : exec.Cmd)
deriving DecidableEq, Repr

/-- The collaborators of the driver.  Each answer is a function of the calls
made before it (oldest first) and of the arguments of the call, so a provider
with any internal state, any failure pattern and any timing is an `Env`.
`pathJoin` is the pure library function `path.Join`. -/
structure Env where
  GenerateRandomID : List Call → String
  AuthenticatedClient : List Call → AuthOptions → Except Error ProviderClient
  NewComputeV2 : List Call → ProviderClient → EndpointOpts → Except Error ServiceClient
  GenerateSSHKey : List Call → String → Option Error
  ReadFile : List Call → String → Except Error String
  keypairsCreate : List Call → ServiceClient → oskey.CreateOpts → Except Error oskey.KeyPair
  keypairsDelete : List Call → ServiceClient → String → Option Error
  serversCreate : List Call → ServiceClient → servers.CreateOpts → Except Error osservers.Server
  serversGet : List Call → ServiceClient → String → Except Error osservers.Server
  serversDelete : List Call → ServiceClient → String → Option Error
  serversReboot : List Call → ServiceClient → String → osservers.RebootMethod → Option Error
  WaitForStatus : List Call → ServiceClient → String → String → Nat → Option Error
  Run : List Call → exec.Cmd → Option Error
  pathJoin : String → String → String

/-- What a method leaves behind: the value it returns, the driver record and
the history of calls. -/
structure Outcome (α : Type) where
  val : α
  d : Driver
  trace : List Call

/-- The Go `errMissingOption`. -/
def errMissingOption (flagName : String) : Error :=
  "rackspace driver requires the --rackspace-" ++ flagName ++ " option"

/-- The Go `NewDriver`: every field but `storePath` has its zero value. -/
def NewDriver (storePath : String) : Driver × Option Error :=
  ({ Username := "", APIKey := "", Region := "", ImageID := "", FlavorID := "",
     KeyPairName := "", storePath := storePath, Basename := "", ServerID := "",
     ServerIPAddr := "" }, none)

/-- The Go `Driver.DriverName`. -/
def Driver.DriverName (_d : Driver) : String := "rackspace"

/-- The Go `Driver.SetConfigFromFlags`: the five fields are stored first, then
checked in order. -/
def Driver.SetConfigFromFlags (d : Driver) (h : List Call) (flags : CreateFlags) :
    Outcome (Option Error) :=
  let d := { d with Username := flags.Username, APIKey := flags.APIKey, Region := flags.Region,
                    ImageID := flags.ImageID, FlavorID := flags.FlavorID }
  if d.Username = "" then ⟨some (errMissingOption "username"), d, h⟩
  else if d.APIKey = "" then ⟨some (errMissingOption "api-key"), d, h⟩
  else if d.Region = "" then ⟨some (errMissingOption "region"), d, h⟩
  else if d.ImageID = "" then ⟨some (errMissingOption "image"), d, h⟩
  else if d.FlavorID = "" then ⟨some (errMissingOption "flavor"), d, h⟩
  else ⟨none, d, h⟩

/-- The Go `Driver.sshKeyPath`. -/
def Driver.sshKeyPath (d : Driver) (env : Env) : String :=
  env.pathJoin d.storePath "id_rsa"

/-- The Go `Driver.publicSSHKeyPath`. -/
def Driver.publicSSHKeyPath (d : Driver) (env : Env) : String :=
  d.sshKeyPath env ++ ".pub"

/-- The Go `Driver.GetSSHCommand`. -/
def Driver.GetSSHCommand (d : Driver) (env : Env) (args : List String) : exec.Cmd :=
  { Host := d.ServerIPAddr, Port := 22, User := "core", KeyPath := d.sshKeyPath env, Args := args }

/-- The Go `Driver.authenticate`. -/
def Driver.authenticate (d : Driver) (env : Env) (h : List Call) :
    Outcome (Except Error ServiceClient) :=
  let ao : AuthOptions := { Username := d.Username, APIKey := d.APIKey }
  let h1 := h ++ [Call.AuthenticatedClient ao]
  match env.AuthenticatedClient h ao with
  | .error err => ⟨.error err, d, h1⟩
  | .ok providerClient =>
    let eo : EndpointOpts := { Region := d.Region }
    let h2 := h1 ++ [Call.NewComputeV2 providerClient eo]
    match env.NewComputeV2 h1 providerClient eo with
    | .error err => ⟨.error err, d, h2⟩
    | .ok serviceClient => ⟨.ok serviceClient, d, h2⟩

/-- The Go `Driver.createSSHKey`. -/
def Driver.createSSHKey (d : Driver) (env : Env) (client : ServiceClient) (h : List Call) :
    Outcome (Option Error) :=
  let h1 := h ++ [Call.GenerateSSHKey (d.sshKeyPath env)]
  match env.GenerateSSHKey h (d.sshKeyPath env) with
  | some err => ⟨some err, d, h1⟩
  | none =>
    let h2 := h1 ++ [Call.ReadFile (d.publicSSHKeyPath env)]
    match env.ReadFile h1 (d.publicSSHKeyPath env) with
    | .error err => ⟨some err, d, h2⟩
    | .ok publicKey =>
      let opts : oskey.CreateOpts := { Name := "docker-key-" ++ d.Basename, PublicKey := publicKey }
      let h3 := h2 ++ [Call.keypairsCreate client opts]
      match env.keypairsCreate h2 client opts with
      | .error err => ⟨some err, d, h3⟩
      | .ok k => ⟨none, { d with KeyPairName := k.Name }, h3⟩

/-- The creation request `Driver.createServer` submits. -/
def Driver.createOpts (d : Driver) : servers.CreateOpts :=
  { Name := "docker-host-" ++ d.Basename, ImageRef := d.ImageID, FlavorRef := d.FlavorID,
    KeyPair := d.KeyPairName, DiskConfig := osdisk.DiskConfig.Manual }

/-- The Go `Driver.createServer`. -/
def Driver.createServer (d : Driver) (env : Env) (client : ServiceClient) (h : List Call) :
    Outcome (Option Error) :=
  let h1 := h ++ [Call.serversCreate client d.createOpts]
  match env.serversCreate h client d.createOpts with
  | .error err => ⟨some err, d, h1⟩
  | .ok s =>
    let h2 := h1 ++ [Call.WaitForStatus client s.ID "ACTIVE" 300]
    match env.WaitForStatus h1 client s.ID "ACTIVE" 300 with
    | some err => ⟨some err, d, h2⟩
    | none =>
      let h3 := h2 ++ [Call.serversGet client s.ID]
      match env.serversGet h2 client s.ID with
      | .error err => ⟨some err, d, h3⟩
      | .ok details =>
        ⟨none, { d with ServerID := details.ID, ServerIPAddr := details.AccessIPv4 }, h3⟩

/-- The constant `init` of `Driver.setupDocker`. -/
def setupDocker.init : String :=
  "[Unit]\nDescription=Docker Socket for the API\n\n[Socket]\nListenStream=2375\nBindIPv6Only=both\nService=docker.service\n\n[Install]\nWantedBy=sockets.target"

/-- The list `serviceCmds` of `Driver.setupDocker`. -/
def setupDocker.serviceCmds : List String :=
  ["systemctl enable docker-tcp.socket", "systemctl stop docker",
   "systemctl start docker-tcp.socket", "systemctl start docker"]

/-- The list `commands` of `Driver.setupDocker`. -/
def setupDocker.commands : List String :=
  ["sudo sh -c \"echo '" ++ setupDocker.init ++ "' > /etc/systemd/system/docker-tcp.socket\"",
   "sudo sh -c \"" ++ String.intercalate " && " setupDocker.serviceCmds ++ "\""]

/-- The loop of `Driver.setupDocker`: the commands run in order and the first
failure ends the loop. -/
def Driver.runCommands (d : Driver) (env : Env) : List String → List Call → Outcome (Option Error)
  | [], h => ⟨none, d, h⟩
  | command :: rest, h =>
    let h1 := h ++ [Call.Run (d.GetSSHCommand env [command])]
    match env.Run h (d.GetSSHCommand env [command]) with
    | some err => ⟨some err, d, h1⟩
    | none => Driver.runCommands d env rest h1

/-- The Go `Driver.setupDocker`. -/
def Driver.setupDocker (d : Driver) (env : Env) (h : List Call) : Outcome (Option Error) :=
  d.runCommands env setupDocker.commands h

/-- The Go `Driver.Create`. -/
def Driver.Create (d : Driver) (env : Env) (h : List Call) : Outcome (Option Error) :=
  let d := { d with Basename := env.GenerateRandomID h }
  let h := h ++ [Call.GenerateRandomID]
  match d.authenticate env h with
  | ⟨.error err, d, h⟩ => ⟨some err, d, h⟩
  | ⟨.ok client, d, h⟩ =>
    match d.createSSHKey env client h with
    | ⟨some err, d, h⟩ => ⟨some err, d, h⟩
    | ⟨none, d, h⟩ =>
      match d.createServer env client h with
      | ⟨some err, d, h⟩ => ⟨some err, d, h⟩
      | ⟨none, d, h⟩ =>
        match d.setupDocker env h with
        | ⟨some err, d, h⟩ => ⟨some err, d, h⟩
        | ⟨none, d, h⟩ => ⟨none, d, h⟩

/-- The Go `Driver.GetIP`. -/
def Driver.GetIP (d : Driver) (h : List Call) : Outcome (String × Option Error) :=
  if d.ServerIPAddr = "" then ⟨("", some (errors.New "Server has not been created yet.")), d, h⟩
  else ⟨(d.ServerIPAddr, none), d, h⟩

/-- The Go `Driver.GetURL`. -/
def Driver.GetURL (d : Driver) (h : List Call) : Outcome (String × Option Error) :=
  match d.GetIP h with
  | ⟨(_, some err), d, h⟩ => ⟨("", some err), d, h⟩
  | ⟨(ip, none), d, h⟩ => ⟨("tcp://" ++ ip ++ ":2375", none), d, h⟩

/-- The Go `Driver.GetState`. -/
def Driver.GetState (d : Driver) (env : Env) (h : List Call) :
    Outcome (state.State × Option Error) :=
  match d.authenticate env h with
  | ⟨.error err, d, h⟩ => ⟨(state.State.None, some err), d, h⟩
  | ⟨.ok client, d, h⟩ =>
    let h1 := h ++ [Call.serversGet client d.ServerID]
    match env.serversGet h client d.ServerID with
    | .error err => ⟨(state.State.None, some err), d, h1⟩
    | .ok current =>
      if current.Status = "BUILD" then ⟨(state.State.Starting, none), d, h1⟩
      else if current.Status = "ACTIVE" then ⟨(state.State.Running, none), d, h1⟩
      else if current.Status = "SUSPENDED" then ⟨(state.State.Paused, none), d, h1⟩
      else if current.Status = "DELETED" then ⟨(state.State.Stopped, none), d, h1⟩
      else ⟨(state.State.None, none), d, h1⟩

/-- The Go `Driver.Start`. -/
def Driver.Start (d : Driver) (h : List Call) : Outcome (Option Error) :=
  ⟨some (errors.New "Unsupported at this time."), d, h⟩

/-- The Go `Driver.Stop`. -/
def Driver.Stop (d : Driver) (h : List Call) : Outcome (Option Error) :=
  ⟨some (errors.New "Unsupported at this time."), d, h⟩

/-- The Go `Driver.Remove`. -/
def Driver.Remove (d : Driver) (env : Env) (h : List Call) : Outcome (Option Error) :=
  match d.authenticate env h with
  | ⟨.error err, d, h⟩ => ⟨some err, d, h⟩
  | ⟨.ok client, d, h⟩ =>
    let h1 := h ++ [Call.serversDelete client d.ServerID]
    match env.serversDelete h client d.ServerID with
    | some err => ⟨some err, d, h1⟩
    | none =>
      let h2 := h1 ++ [Call.keypairsDelete client d.KeyPairName]
      match env.keypairsDelete h1 client d.KeyPairName with
      | some err => ⟨some err, d, h2⟩
      | none => ⟨none, d, h2⟩

/-- The Go `Driver.Restart`. -/
def Driver.Restart (d : Driver) (env : Env) (h : List Call) : Outcome (Option Error) :=
  match d.authenticate env h with
  | ⟨.error err, d, h⟩ => ⟨some err, d, h⟩
  | ⟨.ok client, d, h⟩ =>
    let h1 := h ++ [Call.serversReboot client d.ServerID osservers.RebootMethod.SoftReboot]
    match env.serversReboot h client d.ServerID osservers.RebootMethod.SoftReboot with
    | some err => ⟨some err, d, h1⟩
    | none =>
      let h2 := h1 ++ [Call.WaitForStatus client d.ServerID "ACTIVE" 600]
      match env.WaitForStatus h1 client d.ServerID "ACTIVE" 600 with
      | some err => ⟨some err, d, h2⟩
      | none => ⟨none, d, h2⟩

/-- The Go `Driver.Kill`. -/
def Driver.Kill (d : Driver) (env : Env) (h : List Call) : Outcome (Option Error) :=
  d.Remove env h

/-- The spec's ordered list of required options: the name of the first option,
in the order username, api-key, region, image, flavor, whose value is empty. -/
def firstEmptyOption (flags : CreateFlags) : Option String :=
  ([("username", flags.Username), ("api-key", flags.APIKey), ("region", flags.Region),
    ("image", flags.ImageID), ("flavor", flags.FlavorID)].find? (fun p => p.2 = "")).map Prod.fst

/-- The spec's one-way mapping of the provider's raw status into the normalized
lifecycle state. -/
def normalizedState (status : String) : state.State :=
  match status with
  | "BUILD" => state.State.Starting
  | "ACTIVE" => state.State.Running
  | "SUSPENDED" => state.State.Paused
  | "DELETED" => state.State.Stopped
  | _ => state.State.None

namespace scenario

/-- The handle the example providers hand out. -/
def client : ServiceClient :=
  { Provider := { IdentityBase := "https://identity.example/", IdentityEndpoint := "https://identity.example/v2.0/", TokenID := "token-1" },
    Endpoint := "https://ord.servers.example/v2/" }

/-- The server the example providers report. -/
def server : osservers.Server :=
  { ID := "srv-1", Status := "ACTIVE", AccessIPv4 := "203.0.113.5" }

/-- A provider and local machine on which every call succeeds and the server is
reported active at 203.0.113.5. -/
def ready : Env :=
  { GenerateRandomID := fun _ => "0123abcd"
    AuthenticatedClient := fun _ _ => .ok client.Provider
    NewComputeV2 := fun _ _ _ => .ok client
    GenerateSSHKey := fun _ _ => none
    ReadFile := fun _ _ => .ok "ssh-rsa AAAA"
    keypairsCreate := fun _ _ opts => .ok { Name := opts.Name }
    keypairsDelete := fun _ _ _ => none
    serversCreate := fun _ _ _ => .ok { server with Status := "BUILD", AccessIPv4 := "" }
    serversGet := fun _ _ _ => .ok server
    serversDelete := fun _ _ _ => none
    serversReboot := fun _ _ _ _ => none
    WaitForStatus := fun _ _ _ _ _ => none
    Run := fun _ _ => none
    pathJoin := fun dir file => dir ++ "/" ++ file }

/-- The provider `ready` with a failing server deletion. -/
def deleteFails : Env :=
  { ready with serversDelete := fun _ _ _ => some "Internal Server Error" }

/-- The provider `ready` with a failing key registration. -/
def registrationFails : Env :=
  { ready with keypairsCreate := fun _ _ _ => .error "Key pair already exists" }

/-- The provider `ready` with a poll that runs out of time. -/
def pollTimesOut : Env :=
  { ready with WaitForStatus := fun _ _ _ _ _ => some "Time out in WaitFor" }

/-- The provider `ready` reporting a server without an IPv4 access address. -/
def noAddress : Env :=
  { ready with serversGet := fun _ _ _ => .ok { server with AccessIPv4 := "" } }

/-- The provider `ready` with a failing details fetch. -/
def detailsFail : Env :=
  { ready with serversGet := fun _ _ _ => .error "Service Unavailable" }

/-- The provider `ready` whose server is suspended once the poll has seen it
active: every status query reports SUSPENDED. -/
def suspended : Env :=
  { ready with serversGet := fun _ _ _ => .ok { server with Status := "SUSPENDED" } }

/-- A driver configured with all five options, before any `Create`. -/
def configured : Driver :=
  { (NewDriver "/store").1 with
    Username := "user", APIKey := "key", Region := "ORD", ImageID := "img", FlavorID := "flv" }

/-- A driver record after a successful `Create` against `ready`. -/
def created : Driver :=
  { configured with
    KeyPairName := "docker-key-0123abcd", Basename := "0123abcd", ServerID := "srv-1",
    ServerIPAddr := "203.0.113.5" }

end scenario

/-! ## Theorems -/

/-- Authentication never changes the driver record. -/
theorem authenticate_d (d : Driver) (env : Env) (h : List Call) :
    (d.authenticate env h).d = d := by
  simp only [Driver.authenticate]
  split
  · rfl
  · split <;> rfl

/-- The normalized state as the chain of comparisons `GetState` makes. -/
theorem normalizedState_eq (s : String) :
    normalizedState s =
      if s = "BUILD" then state.State.Starting
      else if s = "ACTIVE" then state.State.Running
      else if s = "SUSPENDED" then state.State.Paused
      else if s = "DELETED" then state.State.Stopped
      else state.State.None := by
  unfold normalizedState
  split <;> simp_all

/-- A successful authentication appended its two calls to the history. -/
theorem authenticate_ok {d : Driver} {env : Env} {h : List Call} {client : ServiceClient}
    (hv : (d.authenticate env h).val = .ok client) :
    ∃ pc, (d.authenticate env h).trace =
      h ++ [Call.AuthenticatedClient { Username := d.Username, APIKey := d.APIKey },
            Call.NewComputeV2 pc { Region := d.Region }] := by
  simp only [Driver.authenticate] at hv ⊢
  split at hv
  · simp at hv
  · rename_i pc hpc
    split <;> exact ⟨pc, by simp⟩

/-- A failed authentication appended one or both of its calls to the history. -/
theorem authenticate_error {d : Driver} {env : Env} {h : List Call} {err : Error}
    (_hv : (d.authenticate env h).val = .error err) :
    (d.authenticate env h).trace =
        h ++ [Call.AuthenticatedClient { Username := d.Username, APIKey := d.APIKey }] ∨
    ∃ pc, (d.authenticate env h).trace =
      h ++ [Call.AuthenticatedClient { Username := d.Username, APIKey := d.APIKey },
            Call.NewComputeV2 pc { Region := d.Region }] := by
  simp only [Driver.authenticate]
  split
  · simp
  · split <;> simp

/-- The ways `createSSHKey` can end: a failed key generation, a failed read of
the public key, a failed registration, or a registration answered with `k`. -/
theorem createSSHKey_cases (d : Driver) (env : Env) (client : ServiceClient) (h : List Call) :
    (∃ err, d.createSSHKey env client h =
        ⟨some err, d, h ++ [Call.GenerateSSHKey (d.sshKeyPath env)]⟩) ∨
    (∃ err, d.createSSHKey env client h =
        ⟨some err, d, h ++ [Call.GenerateSSHKey (d.sshKeyPath env),
                            Call.ReadFile (d.publicSSHKeyPath env)]⟩) ∨
    (∃ err pk, d.createSSHKey env client h =
        ⟨some err, d, h ++ [Call.GenerateSSHKey (d.sshKeyPath env),
                            Call.ReadFile (d.publicSSHKeyPath env),
                            Call.keypairsCreate client ⟨"docker-key-" ++ d.Basename, pk⟩]⟩) ∨
    (∃ pk k,
      env.keypairsCreate (h ++ [Call.GenerateSSHKey (d.sshKeyPath env),
                                Call.ReadFile (d.publicSSHKeyPath env)]) client
          ⟨"docker-key-" ++ d.Basename, pk⟩ = .ok k ∧
      d.createSSHKey env client h =
        ⟨none, { d with KeyPairName := k.Name },
          h ++ [Call.GenerateSSHKey (d.sshKeyPath env), Call.ReadFile (d.publicSSHKeyPath env),
                Call.keypairsCreate client ⟨"docker-key-" ++ d.Basename, pk⟩]⟩) := by
  simp only [Driver.createSSHKey]
  cases env.GenerateSSHKey h (d.sshKeyPath env) with
  | some e => simp
  | none =>
    simp only
    cases env.ReadFile (h ++ [Call.GenerateSSHKey (d.sshKeyPath env)]) (d.publicSSHKeyPath env) with
    | error e => simp
    | ok pk =>
      simp only
      cases hk : env.keypairsCreate
          (h ++ [Call.GenerateSSHKey (d.sshKeyPath env)] ++ [Call.ReadFile (d.publicSSHKeyPath env)])
          client ⟨"docker-key-" ++ d.Basename, pk⟩ with
      | error e =>
        right; right; left
        exact ⟨e, pk, by simp⟩
      | ok k =>
        right; right; right
        refine ⟨pk, k, ?_, by simp⟩
        simpa using hk

/-- The ways `createServer` can end: a failed creation request, a failed poll
for the server `s` the request returned, a failed fetch of its details, or the
details recorded. -/
theorem createServer_cases (d : Driver) (env : Env) (client : ServiceClient) (h : List Call) :
    (∃ err, d.createServer env client h =
        ⟨some err, d, h ++ [Call.serversCreate client d.createOpts]⟩) ∨
    (∃ s err, env.serversCreate h client d.createOpts = .ok s ∧
      env.WaitForStatus (h ++ [Call.serversCreate client d.createOpts]) client s.ID "ACTIVE" 300 =
        some err ∧
      d.createServer env client h =
        ⟨some err, d, h ++ [Call.serversCreate client d.createOpts,
                            Call.WaitForStatus client s.ID "ACTIVE" 300]⟩) ∨
    (∃ s err, env.serversCreate h client d.createOpts = .ok s ∧
      d.createServer env client h =
        ⟨some err, d, h ++ [Call.serversCreate client d.createOpts,
                            Call.WaitForStatus client s.ID "ACTIVE" 300,
                            Call.serversGet client s.ID]⟩) ∨
    (∃ s details, env.serversCreate h client d.createOpts = .ok s ∧
      env.serversGet (h ++ [Call.serversCreate client d.createOpts,
                            Call.WaitForStatus client s.ID "ACTIVE" 300]) client s.ID =
        .ok details ∧
      d.createServer env client h =
        ⟨none, { d with ServerID := details.ID, ServerIPAddr := details.AccessIPv4 },
          h ++ [Call.serversCreate client d.createOpts,
                Call.WaitForStatus client s.ID "ACTIVE" 300, Call.serversGet client s.ID]⟩) := by
  simp only [Driver.createServer]
  cases env.serversCreate h client d.createOpts with
  | error e => simp
  | ok s =>
    simp only
    cases hw : env.WaitForStatus (h ++ [Call.serversCreate client d.createOpts]) client s.ID
        "ACTIVE" 300 with
    | some e =>
      right; left
      exact ⟨s, e, rfl, hw, by simp⟩
    | none =>
      simp only
      cases hg : env.serversGet (h ++ [Call.serversCreate client d.createOpts] ++
          [Call.WaitForStatus client s.ID "ACTIVE" 300]) client s.ID with
      | error e =>
        right; right; left
        exact ⟨s, e, rfl, by simp⟩
      | ok details =>
        right; right; right
        refine ⟨s, details, rfl, ?_, by simp⟩
        simpa using hg

/-- The command loop leaves the driver record alone and appends only
remote-shell calls to the history. -/
theorem runCommands_spec (d : Driver) (env : Env) (commands : List String) (h : List Call) :
    (d.runCommands env commands h).d = d ∧
    ∃ runs, (d.runCommands env commands h).trace = h ++ runs ∧
      ∀ c ∈ runs, ∃ cmd, c = Call.Run cmd := by
  induction commands generalizing h with
  | nil => exact ⟨rfl, [], by simp [Driver.runCommands], by simp⟩
  | cons command rest ih =>
    simp only [Driver.runCommands]
    cases env.Run h (d.GetSSHCommand env [command]) with
    | some e => exact ⟨rfl, [_], rfl, by simp⟩
    | none =>
      simp only
      obtain ⟨hd, runs, ht, hr⟩ := ih (h ++ [Call.Run (d.GetSSHCommand env [command])])
      refine ⟨hd, Call.Run (d.GetSSHCommand env [command]) :: runs, ?_, ?_⟩
      · rw [ht]; simp
      · intro c hc
        rcases List.mem_cons.1 hc with rfl | hc
        · exact ⟨_, rfl⟩
        · exact hr c hc

/-- A call that is not among the trailing calls of a history sits in the part
before them. -/
theorem split_in_left {known runs pre post : List Call} {e : Call}
    (h : known ++ runs = pre ++ e :: post) (he : e ∉ runs) :
    ∃ post', known = pre ++ e :: post' := by
  rcases List.append_eq_append_iff.1 h with ⟨a, rfl, ha⟩ | ⟨c, hc, hc'⟩
  · exact absurd (ha ▸ List.mem_append_right a (List.mem_cons_self e post)) he
  · cases c with
    | nil =>
      simp only [List.nil_append] at hc'
      exact absurd (hc' ▸ List.mem_cons_self e post) he
    | cons x c =>
      simp only [List.cons_append, List.cons.injEq] at hc'
      exact ⟨c, by rw [hc, hc'.1]⟩

/-- The histories `Create` can leave behind.  The calls are issued in the
order random id, authentication (two calls), key generation, public key read,
key registration, server creation, poll, details fetch, remote-shell commands;
a server creation is issued only after a registration answered `k`, with
`k.Name` as its `KeyPair`, and a poll only after a creation answered `s`, for
`s.ID`. -/
theorem Create_cases (d : Driver) (env : Env) (h : List Call) :
    ∃ ao eo p q runs, (∀ c ∈ runs, ∃ cmd, c = Call.Run cmd) ∧
      ((d.Create env h).trace = h ++ [Call.GenerateRandomID, Call.AuthenticatedClient ao] ∨
       ∃ pc,
        (d.Create env h).trace =
          h ++ [Call.GenerateRandomID, Call.AuthenticatedClient ao, Call.NewComputeV2 pc eo] ∨
        (d.Create env h).trace =
          h ++ [Call.GenerateRandomID, Call.AuthenticatedClient ao, Call.NewComputeV2 pc eo,
                Call.GenerateSSHKey p] ∨
        (d.Create env h).trace =
          h ++ [Call.GenerateRandomID, Call.AuthenticatedClient ao, Call.NewComputeV2 pc eo,
                Call.GenerateSSHKey p, Call.ReadFile q] ∨
        ∃ client ko,
          (d.Create env h).trace =
            h ++ [Call.GenerateRandomID, Call.AuthenticatedClient ao, Call.NewComputeV2 pc eo,
                  Call.GenerateSSHKey p, Call.ReadFile q, Call.keypairsCreate client ko] ∨
          ∃ k opts,
            env.keypairsCreate
              (h ++ [Call.GenerateRandomID, Call.AuthenticatedClient ao, Call.NewComputeV2 pc eo,
                     Call.GenerateSSHKey p, Call.ReadFile q]) client ko = .ok k ∧
            opts.KeyPair = k.Name ∧
            ((d.Create env h).trace =
              h ++ [Call.GenerateRandomID, Call.AuthenticatedClient ao, Call.NewComputeV2 pc eo,
                    Call.GenerateSSHKey p, Call.ReadFile q, Call.keypairsCreate client ko,
                    Call.serversCreate client opts] ∨
             ∃ s,
              env.serversCreate
                (h ++ [Call.GenerateRandomID, Call.AuthenticatedClient ao,
                       Call.NewComputeV2 pc eo, Call.GenerateSSHKey p, Call.ReadFile q,
                       Call.keypairsCreate client ko]) client opts = .ok s ∧
              ((d.Create env h).trace =
                h ++ [Call.GenerateRandomID, Call.AuthenticatedClient ao, Call.NewComputeV2 pc eo,
                      Call.GenerateSSHKey p, Call.ReadFile q, Call.keypairsCreate client ko,
                      Call.serversCreate client opts,
                      Call.WaitForStatus client s.ID "ACTIVE" 300] ∨
               (d.Create env h).trace =
                h ++ [Call.GenerateRandomID, Call.AuthenticatedClient ao, Call.NewComputeV2 pc eo,
                      Call.GenerateSSHKey p, Call.ReadFile q, Call.keypairsCreate client ko,
                      Call.serversCreate client opts,
                      Call.WaitForStatus client s.ID "ACTIVE" 300,
                      Call.serversGet client s.ID] ++ runs))) := by
  obtain ⟨T, hT⟩ : ∃ T, (d.Create env h).trace = T := ⟨_, rfl⟩
  simp only [hT]
  simp only [Driver.Create] at hT
  generalize ({ d with Basename := env.GenerateRandomID h } : Driver) = d0 at hT
  have hd := authenticate_d d0 env (h ++ [Call.GenerateRandomID])
  rcases hA : d0.authenticate env (h ++ [Call.GenerateRandomID]) with ⟨v, d0', t⟩
  rw [hA] at hd hT
  simp only at hd
  subst hd
  refine ⟨{ Username := d0'.Username, APIKey := d0'.APIKey }, { Region := d0'.Region },
    d0'.sshKeyPath env, d0'.publicSSHKeyPath env, ?_⟩
  cases v with
  | error e =>
    have ht := authenticate_error (congrArg Outcome.val hA)
    rw [hA] at ht
    simp only at ht hT
    subst hT
    refine ⟨[], by simp, ?_⟩
    rcases ht with rfl | ⟨pc, rfl⟩
    · left; simp
    · right; exact ⟨pc, Or.inl (by simp)⟩
  | ok client =>
    obtain ⟨pc, ht⟩ := authenticate_ok (congrArg Outcome.val hA)
    rw [hA] at ht
    simp only at ht hT
    rcases createSSHKey_cases d0' env client t with
      ⟨e, hK⟩ | ⟨e, hK⟩ | ⟨e, pk, hK⟩ | ⟨pk, k, hk, hK⟩
    · rw [hK] at hT
      simp only at hT
      subst hT ht
      exact ⟨[], by simp, Or.inr ⟨pc, Or.inr (Or.inl (by simp))⟩⟩
    · rw [hK] at hT
      simp only at hT
      subst hT ht
      exact ⟨[], by simp, Or.inr ⟨pc, Or.inr (Or.inr (Or.inl (by simp)))⟩⟩
    · rw [hK] at hT
      simp only at hT
      subst hT ht
      exact ⟨[], by simp, Or.inr ⟨pc, Or.inr (Or.inr (Or.inr ⟨client, ⟨"docker-key-" ++ d0'.Basename, pk⟩, Or.inl (by simp)⟩))⟩⟩
    · rw [hK] at hT
      simp only at hT
      have hk' : env.keypairsCreate
          (h ++ [Call.GenerateRandomID,
                 Call.AuthenticatedClient { Username := d0'.Username, APIKey := d0'.APIKey },
                 Call.NewComputeV2 pc { Region := d0'.Region },
                 Call.GenerateSSHKey (d0'.sshKeyPath env),
                 Call.ReadFile (d0'.publicSSHKeyPath env)]) client
          ⟨"docker-key-" ++ d0'.Basename, pk⟩ = .ok k := by
        rw [← hk, ht]; simp
      have hd1 : (Driver.createOpts { d0' with KeyPairName := k.Name }).KeyPair = k.Name := rfl
      rcases createServer_cases { d0' with KeyPairName := k.Name } env client
        (t ++ [Call.GenerateSSHKey (d0'.sshKeyPath env), Call.ReadFile (d0'.publicSSHKeyPath env),
               Call.keypairsCreate client ⟨"docker-key-" ++ d0'.Basename, pk⟩]) with
        ⟨e, hS⟩ | ⟨s, e, hs, -, hS⟩ | ⟨s, e, hs, hS⟩ | ⟨s, details, hs, -, hS⟩
      · rw [hS] at hT
        simp only at hT
        subst hT ht
        exact ⟨[], by simp, Or.inr ⟨pc, Or.inr (Or.inr (Or.inr ⟨client, ⟨"docker-key-" ++ d0'.Basename, pk⟩, Or.inr
          ⟨k, Driver.createOpts { d0' with KeyPairName := k.Name }, hk', hd1, Or.inl (by simp)⟩⟩))⟩⟩
      · rw [hS] at hT
        simp only at hT
        subst hT ht
        exact ⟨[], by simp, Or.inr ⟨pc, Or.inr (Or.inr (Or.inr ⟨client, ⟨"docker-key-" ++ d0'.Basename, pk⟩, Or.inr
          ⟨k, Driver.createOpts { d0' with KeyPairName := k.Name }, hk', hd1, Or.inr ⟨s, by simpa using hs, Or.inl (by simp)⟩⟩⟩))⟩⟩
      · rw [hS] at hT
        simp only at hT
        subst hT ht
        exact ⟨[], by simp, Or.inr ⟨pc, Or.inr (Or.inr (Or.inr ⟨client, ⟨"docker-key-" ++ d0'.Basename, pk⟩, Or.inr
          ⟨k, Driver.createOpts { d0' with KeyPairName := k.Name }, hk', hd1, Or.inr ⟨s, by simpa using hs, Or.inr (by simp)⟩⟩⟩))⟩⟩
      · rw [hS] at hT
        simp only [Driver.setupDocker] at hT
        obtain ⟨-, runs, hr, hruns⟩ := runCommands_spec
          { d0' with KeyPairName := k.Name, ServerID := details.ID,
                     ServerIPAddr := details.AccessIPv4 } env setupDocker.commands
          (t ++ [Call.GenerateSSHKey (d0'.sshKeyPath env), Call.ReadFile (d0'.publicSSHKeyPath env),
                 Call.keypairsCreate client ⟨"docker-key-" ++ d0'.Basename, pk⟩] ++
            [Call.serversCreate client (Driver.createOpts { d0' with KeyPairName := k.Name }),
             Call.WaitForStatus client s.ID "ACTIVE" 300, Call.serversGet client s.ID])
        have hT' : T = t ++ [Call.GenerateSSHKey (d0'.sshKeyPath env),
              Call.ReadFile (d0'.publicSSHKeyPath env),
              Call.keypairsCreate client ⟨"docker-key-" ++ d0'.Basename, pk⟩] ++
            [Call.serversCreate client (Driver.createOpts { d0' with KeyPairName := k.Name }),
             Call.WaitForStatus client s.ID "ACTIVE" 300, Call.serversGet client s.ID] ++ runs := by
          rw [← hr, ← hT]
          split <;> simp_all
        subst hT' ht
        exact ⟨runs, hruns, Or.inr ⟨pc, Or.inr (Or.inr (Or.inr ⟨client, ⟨"docker-key-" ++ d0'.Basename, pk⟩, Or.inr
          ⟨k, Driver.createOpts { d0' with KeyPairName := k.Name }, hk', hd1, Or.inr ⟨s, by simpa using hs, Or.inr (by simp)⟩⟩⟩))⟩⟩

/-- After a successful authentication and a successful status query `GetState`
returns the normalized state of the reported status. -/
theorem GetState_ok {d : Driver} {env : Env} {h : List Call} {client : ServiceClient}
    {current : osservers.Server} (hv : (d.authenticate env h).val = .ok client)
    (hg : env.serversGet (d.authenticate env h).trace client d.ServerID = .ok current) :
    (d.GetState env h).val = (normalizedState current.Status, none) := by
  have hd := authenticate_d d env h
  rcases hA : d.authenticate env h with ⟨v, d', t⟩
  rw [hA] at hd hv hg
  simp only at hd hv hg
  subst hd hv
  simp only [Driver.GetState, hA, hg, normalizedState_eq]
  split_ifs <;> rfl

/-- The credential step never touches the server id or the address. -/
theorem createSSHKey_d (d : Driver) (env : Env) (client : ServiceClient) (h : List Call) :
    (d.createSSHKey env client h).d.ServerID = d.ServerID ∧
    (d.createSSHKey env client h).d.ServerIPAddr = d.ServerIPAddr := by
  rcases createSSHKey_cases d env client h with
    ⟨e, hK⟩ | ⟨e, hK⟩ | ⟨e, pk, hK⟩ | ⟨pk, k, -, hK⟩ <;> rw [hK] <;> exact ⟨rfl, rfl⟩

/-- C4: `SetConfigFromFlags` returns an error exactly when one of the five
option values is empty, never touches the call history, and the error is the
missing-option error of the first empty option in the order username, api-key,
region, image, flavor (so it is nil when all five are non-empty). -/
theorem SetConfigFromFlags_missing_option (d : Driver) (h : List Call) (flags : CreateFlags) :
    ((d.SetConfigFromFlags h flags).val ≠ none ↔
      (flags.Username = "" ∨ flags.APIKey = "" ∨ flags.Region = "" ∨ flags.ImageID = "" ∨
        flags.FlavorID = "")) ∧
    (d.SetConfigFromFlags h flags).trace = h ∧
    (d.SetConfigFromFlags h flags).val =
      (firstEmptyOption flags).map
        (fun name => "rackspace driver requires the --rackspace-" ++ name ++ " option") := by
  obtain ⟨u, a, r, i, f⟩ := flags
  simp only [Driver.SetConfigFromFlags, firstEmptyOption, errMissingOption, List.find?]
  by_cases hu : u = "" <;> by_cases ha : a = "" <;> by_cases hr : r = "" <;>
    by_cases hi : i = "" <;> by_cases hf : f = "" <;> simp [hu, ha, hr, hi, hf]

/-- C10: `Start` and `Stop` each return the error "Unsupported at this time.",
add no call to the history and leave the driver record as it was. -/
theorem Start_Stop_unsupported (d : Driver) (h : List Call) :
    (d.Start h).val = some "Unsupported at this time." ∧ (d.Start h).trace = h ∧
    (d.Start h).d = d ∧
    (d.Stop h).val = some "Unsupported at this time." ∧ (d.Stop h).trace = h ∧
    (d.Stop h).d = d := by
  simp [Driver.Start, Driver.Stop, errors.New]

/-- C5: after a successful authentication and a successful status query that
reports the raw status `s`, `GetState` returns the normalized state of `s`
(BUILD to Starting, ACTIVE to Running, SUSPENDED to Paused, DELETED to Stopped,
anything else to None) without error; the state Error is never returned; and
when authentication or the status query fails, `GetState` returns None with
that error. -/
theorem GetState_normalizes (d : Driver) (env : Env) (h : List Call) :
    (∀ client current, (d.authenticate env h).val = .ok client →
      env.serversGet (d.authenticate env h).trace client d.ServerID = .ok current →
      (d.GetState env h).val = (normalizedState current.Status, none)) ∧
    (normalizedState "BUILD" = state.State.Starting ∧ normalizedState "ACTIVE" = state.State.Running ∧
      normalizedState "SUSPENDED" = state.State.Paused ∧
      normalizedState "DELETED" = state.State.Stopped ∧
      ∀ s, s ≠ "BUILD" → s ≠ "ACTIVE" → s ≠ "SUSPENDED" → s ≠ "DELETED" →
        normalizedState s = state.State.None) ∧
    (d.GetState env h).val.1 ≠ state.State.Error ∧
    (∀ err, (d.authenticate env h).val = .error err →
      (d.GetState env h).val = (state.State.None, some err)) ∧
    (∀ client err, (d.authenticate env h).val = .ok client →
      env.serversGet (d.authenticate env h).trace client d.ServerID = .error err →
      (d.GetState env h).val = (state.State.None, some err)) := by
  have hd := authenticate_d d env h
  rcases hA : d.authenticate env h with ⟨v, d', t⟩
  rw [hA] at hd
  simp only at hd
  subst hd
  refine ⟨?_, ?_, ?_, ?_, ?_⟩
  · intro client current hv hg
    simp only at hv hg
    subst hv
    simp only [Driver.GetState, hA, hg, normalizedState_eq]
    split_ifs <;> rfl
  · refine ⟨rfl, rfl, rfl, rfl, ?_⟩
    intro s h1 h2 h3 h4
    simp [normalizedState_eq, h1, h2, h3, h4]
  · simp only [Driver.GetState, hA]
    cases v with
    | error e => simp
    | ok client =>
      simp only
      cases env.serversGet t client d'.ServerID with
      | error e => simp
      | ok current =>
        simp only
        split_ifs <;> simp
  · intro err hv
    simp only at hv
    subst hv
    simp [Driver.GetState, hA]
  · intro client err hv hg
    simp only at hv hg
    subst hv
    simp [Driver.GetState, hA, hg]

/-- C5, at a concrete run: the provider `ready` reports ACTIVE and `GetState`
answers Running without error. -/
theorem GetState_normalizes_witness :
    (scenario.created.GetState scenario.ready []).val = (state.State.Running, none) :=
  (GetState_normalizes scenario.created scenario.ready []).1 scenario.client scenario.server
    rfl rfl

/-- C8: with a non-empty address `GetIP` returns it and `GetURL` returns
"tcp://" ++ ip ++ ":2375", both without error; with an empty address, as in the
record `NewDriver` returns, both fail with "Server has not been created yet."
and return the empty string. -/
theorem GetIP_GetURL (d : Driver) (h : List Call) (storePath : String) :
    (d.ServerIPAddr ≠ "" →
      (d.GetIP h).val = (d.ServerIPAddr, none) ∧
      (d.GetURL h).val = ("tcp://" ++ d.ServerIPAddr ++ ":2375", none)) ∧
    (d.ServerIPAddr = "" →
      (d.GetIP h).val = ("", some "Server has not been created yet.") ∧
      (d.GetURL h).val = ("", some "Server has not been created yet.")) ∧
    ((NewDriver storePath).1.GetIP h).val = ("", some "Server has not been created yet.") ∧
    ((NewDriver storePath).1.GetURL h).val = ("", some "Server has not been created yet.") := by
  refine ⟨?_, ?_, ?_, ?_⟩
  · intro hne
    simp [Driver.GetURL, Driver.GetIP, hne]
  · intro he
    simp [Driver.GetURL, Driver.GetIP, he, errors.New]
  · simp [Driver.GetIP, NewDriver, errors.New]
  · simp [Driver.GetURL, Driver.GetIP, NewDriver, errors.New]

/-- C8, at the spec's example: the address 203.0.113.5 gives the URL
tcp://203.0.113.5:2375. -/
theorem GetIP_GetURL_witness :
    scenario.created.ServerIPAddr ≠ "" ∧
    (scenario.created.GetIP []).val = ("203.0.113.5", none) ∧
    (scenario.created.GetURL []).val = ("tcp://203.0.113.5:2375", none) :=
  ⟨by decide, (GetIP_GetURL scenario.created [] "/store").1 (by decide)⟩

/-- C1: when authentication succeeds and the server-deletion call returns an
error, `Remove` returns that error and the calls it issued are exactly the
authentication calls followed by the server-deletion call, so no keypair
deletion is among them; and whenever a keypair-deletion call is among the calls
`Remove` issued, the call right before it is the server-deletion call, which
returned success. -/
theorem Remove_aborts_on_server_deletion_error (d : Driver) (env : Env) (h : List Call) :
    (∀ client err, (d.authenticate env h).val = .ok client →
      env.serversDelete (d.authenticate env h).trace client d.ServerID = some err →
      (d.Remove env h).val = some err ∧
      (d.Remove env h).trace =
        (d.authenticate env h).trace ++ [Call.serversDelete client d.ServerID] ∧
      ∃ new, (d.Remove env h).trace = h ++ new ∧ ∀ c name, Call.keypairsDelete c name ∉ new) ∧
    (∀ pre post c name, (d.Remove env h).trace = h ++ pre ++ Call.keypairsDelete c name :: post →
      ∃ pre', pre = pre' ++ [Call.serversDelete c d.ServerID] ∧
        env.serversDelete (h ++ pre') c d.ServerID = none) := by
  have hd := authenticate_d d env h
  rcases hA : d.authenticate env h with ⟨v, d', t⟩
  rw [hA] at hd
  simp only at hd
  subst hd
  constructor
  · intro client err hv hg
    simp only at hv hg
    subst hv
    obtain ⟨pc, ht⟩ := authenticate_ok (congrArg Outcome.val hA)
    rw [hA] at ht
    simp only at ht
    subst ht
    simp only [Driver.Remove, hA, hg, true_and]
    exact ⟨_, List.append_assoc _ _ _, by simp⟩
  · intro pre post c name hp
    simp only [Driver.Remove, hA] at hp
    cases v with
    | error e =>
      have ht := authenticate_error (congrArg Outcome.val hA)
      rw [hA] at ht
      simp only at ht hp
      rcases ht with rfl | ⟨pc, rfl⟩ <;>
        simp [List.append_assoc, List.cons_eq_append_iff] at hp
    | ok client =>
      obtain ⟨pc, ht⟩ := authenticate_ok (congrArg Outcome.val hA)
      rw [hA] at ht
      simp only at ht hp
      subst ht
      cases hsd : env.serversDelete
          (h ++ [Call.AuthenticatedClient { Username := d'.Username, APIKey := d'.APIKey },
                 Call.NewComputeV2 pc { Region := d'.Region }]) client d'.ServerID with
      | some e =>
        rw [hsd] at hp
        simp [List.append_assoc, List.cons_eq_append_iff] at hp
      | none =>
        rw [hsd] at hp
        cases hkd : env.keypairsDelete (h ++ [Call.AuthenticatedClient { Username := d'.Username, APIKey := d'.APIKey },
                 Call.NewComputeV2 pc { Region := d'.Region }] ++ [Call.serversDelete client d'.ServerID]) client d'.KeyPairName <;>
        · rw [hkd] at hp
          simp [List.append_assoc, List.cons_eq_append_iff] at hp
          obtain ⟨_, rfl, _, rfl, _, rfl, rfl, ⟨rfl, rfl⟩, rfl⟩ := hp
          exact ⟨[_, _], by simp, hsd⟩

/-- C1, at two concrete runs: against a provider whose server deletion fails,
`Remove` returns that failure after three calls; against `ready` the keypair
deletion follows a successful server deletion. -/
theorem Remove_aborts_on_server_deletion_error_witness :
    ((scenario.created.Remove scenario.deleteFails []).val = some "Internal Server Error" ∧
      (scenario.created.Remove scenario.deleteFails []).trace =
        (scenario.created.authenticate scenario.deleteFails []).trace ++
          [Call.serversDelete scenario.client "srv-1"] ∧
      ∃ new, (scenario.created.Remove scenario.deleteFails []).trace = [] ++ new ∧
        ∀ c name, Call.keypairsDelete c name ∉ new) ∧
    ∃ pre', [Call.AuthenticatedClient { Username := "user", APIKey := "key" },
             Call.NewComputeV2 scenario.client.Provider { Region := "ORD" },
             Call.serversDelete scenario.client "srv-1"] =
          pre' ++ [Call.serversDelete scenario.client scenario.created.ServerID] ∧
        scenario.ready.serversDelete ([] ++ pre') scenario.client scenario.created.ServerID = none :=
  ⟨(Remove_aborts_on_server_deletion_error scenario.created scenario.deleteFails []).1
      scenario.client "Internal Server Error" rfl rfl,
   (Remove_aborts_on_server_deletion_error scenario.created scenario.ready []).2
      [Call.AuthenticatedClient { Username := "user", APIKey := "key" },
       Call.NewComputeV2 scenario.client.Provider { Region := "ORD" },
       Call.serversDelete scenario.client "srv-1"] [] scenario.client "docker-key-0123abcd" rfl⟩

/-- C9: `Restart` and `Create` both poll for the status ACTIVE, with the
budgets 600 and 300.  When authentication and the soft-reboot request succeed,
`Restart` issues exactly the poll for the record's `ServerID`, ACTIVE, 600 right
after the reboot request and returns what the poll returns.  When
authentication, the credential step and the server-creation call succeed,
`Create` issues the poll for the id the creation call returned, ACTIVE, 300
right after the creation call, and returns the poll's error when it fails.
Conversely, every poll among the calls `Restart` issued is for the record's
`ServerID`, ACTIVE, 600 and comes right after a soft-reboot request for that id
which returned success; every poll among the calls `Create` issued is for
ACTIVE, 300 and for the id of the server returned by the server-creation call
right before it. -/
theorem poll_budgets (d : Driver) (env : Env) (h : List Call) :
    (∀ client, (d.authenticate env h).val = .ok client →
      env.serversReboot (d.authenticate env h).trace client d.ServerID
        osservers.RebootMethod.SoftReboot = none →
      (d.Restart env h).trace =
        (d.authenticate env h).trace ++
          [Call.serversReboot client d.ServerID osservers.RebootMethod.SoftReboot,
           Call.WaitForStatus client d.ServerID "ACTIVE" 600] ∧
      (d.Restart env h).val =
        env.WaitForStatus ((d.authenticate env h).trace ++
          [Call.serversReboot client d.ServerID osservers.RebootMethod.SoftReboot])
          client d.ServerID "ACTIVE" 600) ∧
    (∀ client d0 d1 t0 t1 s,
      Driver.authenticate { d with Basename := env.GenerateRandomID h } env
        (h ++ [Call.GenerateRandomID]) = ⟨.ok client, d0, t0⟩ →
      d0.createSSHKey env client t0 = ⟨none, d1, t1⟩ →
      env.serversCreate t1 client d1.createOpts = .ok s →
      (∃ rest, (d.Create env h).trace =
        t1 ++ Call.serversCreate client d1.createOpts ::
          Call.WaitForStatus client s.ID "ACTIVE" 300 :: rest) ∧
      ∀ err, env.WaitForStatus (t1 ++ [Call.serversCreate client d1.createOpts]) client s.ID
          "ACTIVE" 300 = some err →
        (d.Create env h).val = some err) ∧
    (∀ pre post c id status secs,
      (d.Restart env h).trace = h ++ pre ++ Call.WaitForStatus c id status secs :: post →
      id = d.ServerID ∧ status = "ACTIVE" ∧ secs = 600 ∧
      ∃ pre', pre = pre' ++ [Call.serversReboot c d.ServerID osservers.RebootMethod.SoftReboot] ∧
        env.serversReboot (h ++ pre') c d.ServerID osservers.RebootMethod.SoftReboot = none) ∧
    (∀ pre post c id status secs,
      (d.Create env h).trace = h ++ pre ++ Call.WaitForStatus c id status secs :: post →
      status = "ACTIVE" ∧ secs = 300 ∧
      ∃ pre' opts s, pre = pre' ++ [Call.serversCreate c opts] ∧
        env.serversCreate (h ++ pre') c opts = .ok s ∧ id = s.ID) := by
  refine ⟨?_, ?_, ?_, ?_⟩
  · have hd := authenticate_d d env h
    rcases hA : d.authenticate env h with ⟨v, d', t⟩
    rw [hA] at hd
    simp only at hd
    subst hd
    intro client hv hrb
    simp only at hv hrb
    subst hv
    simp only [Driver.Restart, hA, hrb]
    cases env.WaitForStatus
        (t ++ [Call.serversReboot client d'.ServerID osservers.RebootMethod.SoftReboot])
        client d'.ServerID "ACTIVE" 600 <;> simp
  · intro client d0 d1 t0 t1 s hauth hkey hsrv
    simp only [Driver.Create, hauth, hkey, Driver.createServer, hsrv]
    cases env.WaitForStatus (t1 ++ [Call.serversCreate client d1.createOpts]) client s.ID
        "ACTIVE" 300 with
    | some e => exact ⟨⟨[], by simp⟩, by simp⟩
    | none =>
      refine ⟨?_, by simp⟩
      simp only
      cases env.serversGet (t1 ++ [Call.serversCreate client d1.createOpts] ++
          [Call.WaitForStatus client s.ID "ACTIVE" 300]) client s.ID with
      | error e => exact ⟨[Call.serversGet client s.ID], by simp⟩
      | ok details =>
        obtain ⟨-, runs, hr, -⟩ := runCommands_spec
          { d1 with ServerID := details.ID, ServerIPAddr := details.AccessIPv4 } env
          setupDocker.commands
          (t1 ++ [Call.serversCreate client d1.createOpts] ++
            [Call.WaitForStatus client s.ID "ACTIVE" 300] ++ [Call.serversGet client s.ID])
        refine ⟨Call.serversGet client s.ID :: runs, ?_⟩
        simp only [Driver.setupDocker]
        have hT : ∀ o : Outcome (Option Error),
            (match o with
              | ⟨some err, d, h⟩ => (⟨some err, d, h⟩ : Outcome (Option Error))
              | ⟨none, d, h⟩ => ⟨none, d, h⟩).trace = o.trace := by
          intro o
          rcases o with ⟨_ | _, _, _⟩ <;> rfl
        rw [hT, hr]
        simp
  · have hd := authenticate_d d env h
    rcases hA : d.authenticate env h with ⟨v, d', t⟩
    rw [hA] at hd
    simp only at hd
    subst hd
    intro pre post c id status secs hp
    simp only [Driver.Restart, hA] at hp
    cases v with
    | error e =>
      have ht := authenticate_error (congrArg Outcome.val hA)
      rw [hA] at ht
      simp only at ht hp
      rcases ht with rfl | ⟨pc, rfl⟩ <;>
        simp [List.append_assoc, List.cons_eq_append_iff] at hp
    | ok client =>
      obtain ⟨pc, ht⟩ := authenticate_ok (congrArg Outcome.val hA)
      rw [hA] at ht
      simp only at ht hp
      subst ht
      cases hrb : env.serversReboot
          (h ++ [Call.AuthenticatedClient { Username := d'.Username, APIKey := d'.APIKey },
                 Call.NewComputeV2 pc { Region := d'.Region }]) client d'.ServerID
          osservers.RebootMethod.SoftReboot with
      | some e =>
        rw [hrb] at hp
        simp [List.append_assoc, List.cons_eq_append_iff] at hp
      | none =>
        rw [hrb] at hp
        cases hw : env.WaitForStatus
            (h ++ [Call.AuthenticatedClient { Username := d'.Username, APIKey := d'.APIKey },
                   Call.NewComputeV2 pc { Region := d'.Region }] ++
              [Call.serversReboot client d'.ServerID osservers.RebootMethod.SoftReboot])
            client d'.ServerID "ACTIVE" 600 <;>
        · rw [hw] at hp
          simp [List.append_assoc, List.cons_eq_append_iff] at hp
          obtain ⟨_, rfl, _, rfl, _, rfl, rfl, ⟨rfl, rfl, rfl, rfl⟩, rfl⟩ := hp
          exact ⟨rfl, rfl, rfl, [_, _], by simp, hrb⟩
  · intro pre post c id status secs hp
    obtain ⟨ao, eo, p, q, runs, hruns, hT⟩ := Create_cases d env h
    rcases hT with hT | ⟨pc, hT | hT | hT | ⟨client, ko, hT | ⟨k, opts, hk, hd1, hT | ⟨s, hs, hT | hT⟩⟩⟩⟩
    · rw [hT] at hp
      simp [List.append_assoc, List.cons_eq_append_iff] at hp
    · rw [hT] at hp
      simp [List.append_assoc, List.cons_eq_append_iff] at hp
    · rw [hT] at hp
      simp [List.append_assoc, List.cons_eq_append_iff] at hp
    · rw [hT] at hp
      simp [List.append_assoc, List.cons_eq_append_iff] at hp
    · rw [hT] at hp
      simp [List.append_assoc, List.cons_eq_append_iff] at hp
    · rw [hT] at hp
      simp [List.append_assoc, List.cons_eq_append_iff] at hp
    · rw [hT] at hp
      simp [List.append_assoc, List.cons_eq_append_iff] at hp
      obtain ⟨_, rfl, _, rfl, _, rfl, _, rfl, _, rfl, _, rfl, _, rfl, rfl, ⟨rfl, rfl, rfl, rfl⟩, rfl⟩ := hp
      exact ⟨rfl, rfl, [_, _, _, _, _, _], opts, s, by simp, hs, rfl⟩
    · rw [hT, List.append_assoc, List.append_assoc, List.append_cancel_left_eq] at hp
      have hne : Call.WaitForStatus c id status secs ∉ runs := by
        intro hm
        obtain ⟨cmd, hc⟩ := hruns _ hm
        cases hc
      obtain ⟨post', hp'⟩ := split_in_left hp hne
      simp [List.cons_eq_append_iff] at hp'
      obtain ⟨_, rfl, _, rfl, _, rfl, _, rfl, _, rfl, _, rfl, _, rfl, rfl, ⟨rfl, rfl, rfl, rfl⟩, rfl⟩ := hp'
      exact ⟨rfl, rfl, [_, _, _, _, _, _], opts, s, by simp, hs, rfl⟩

/-- C9, at two concrete runs against `ready`: `Restart` issues the poll for
"srv-1" with the budget 600 right after its reboot request and returns the
poll's nil, and `Create` issues the poll for "srv-1", the id the creation call
returned, with the budget 300 right after the creation call. -/
theorem poll_budgets_witness :
    ((scenario.created.Restart scenario.ready []).trace =
        (scenario.created.authenticate scenario.ready []).trace ++
          [Call.serversReboot scenario.client scenario.created.ServerID
             osservers.RebootMethod.SoftReboot,
           Call.WaitForStatus scenario.client scenario.created.ServerID "ACTIVE" 600] ∧
      (scenario.created.Restart scenario.ready []).val =
        scenario.ready.WaitForStatus
          ((scenario.created.authenticate scenario.ready []).trace ++
            [Call.serversReboot scenario.client scenario.created.ServerID
               osservers.RebootMethod.SoftReboot])
          scenario.client scenario.created.ServerID "ACTIVE" 600) ∧
    (∃ rest, (scenario.configured.Create scenario.ready []).trace =
      [Call.GenerateRandomID,
       Call.AuthenticatedClient { Username := "user", APIKey := "key" },
       Call.NewComputeV2 scenario.client.Provider { Region := "ORD" },
       Call.GenerateSSHKey "/store/id_rsa", Call.ReadFile "/store/id_rsa.pub",
       Call.keypairsCreate scenario.client
         { Name := "docker-key-0123abcd", PublicKey := "ssh-rsa AAAA" }] ++
        Call.serversCreate scenario.client
            (Driver.createOpts { scenario.configured with
              Basename := "0123abcd", KeyPairName := "docker-key-0123abcd" }) ::
          Call.WaitForStatus scenario.client "srv-1" "ACTIVE" 300 :: rest) ∧
    ("srv-1" = scenario.created.ServerID ∧ "ACTIVE" = "ACTIVE" ∧ 600 = 600 ∧
      ∃ pre', [Call.AuthenticatedClient { Username := "user", APIKey := "key" },
               Call.NewComputeV2 scenario.client.Provider { Region := "ORD" },
               Call.serversReboot scenario.client "srv-1" osservers.RebootMethod.SoftReboot] =
          pre' ++ [Call.serversReboot scenario.client scenario.created.ServerID
                    osservers.RebootMethod.SoftReboot] ∧
        scenario.ready.serversReboot ([] ++ pre') scenario.client scenario.created.ServerID
          osservers.RebootMethod.SoftReboot = none) ∧
    ("ACTIVE" = "ACTIVE" ∧ 300 = 300 ∧
      ∃ pre' opts s,
        [Call.GenerateRandomID,
         Call.AuthenticatedClient { Username := "user", APIKey := "key" },
         Call.NewComputeV2 scenario.client.Provider { Region := "ORD" },
         Call.GenerateSSHKey "/store/id_rsa", Call.ReadFile "/store/id_rsa.pub",
         Call.keypairsCreate scenario.client
           { Name := "docker-key-0123abcd", PublicKey := "ssh-rsa AAAA" },
         Call.serversCreate scenario.client scenario.created.createOpts] =
          pre' ++ [Call.serversCreate scenario.client opts] ∧
        scenario.ready.serversCreate ([] ++ pre') scenario.client opts = .ok s ∧
        "srv-1" = s.ID) :=
  ⟨(poll_budgets scenario.created scenario.ready []).1 scenario.client rfl rfl,
   ((poll_budgets scenario.configured scenario.ready []).2.1 scenario.client
      { scenario.configured with Basename := "0123abcd" }
      { scenario.configured with Basename := "0123abcd", KeyPairName := "docker-key-0123abcd" }
      [Call.GenerateRandomID,
       Call.AuthenticatedClient { Username := "user", APIKey := "key" },
       Call.NewComputeV2 scenario.client.Provider { Region := "ORD" }]
      [Call.GenerateRandomID,
       Call.AuthenticatedClient { Username := "user", APIKey := "key" },
       Call.NewComputeV2 scenario.client.Provider { Region := "ORD" },
       Call.GenerateSSHKey "/store/id_rsa", Call.ReadFile "/store/id_rsa.pub",
       Call.keypairsCreate scenario.client
         { Name := "docker-key-0123abcd", PublicKey := "ssh-rsa AAAA" }]
      { ID := "srv-1", Status := "BUILD", AccessIPv4 := "" } rfl rfl rfl).1,
   (poll_budgets scenario.created scenario.ready []).2.2.1
      [Call.AuthenticatedClient { Username := "user", APIKey := "key" },
       Call.NewComputeV2 scenario.client.Provider { Region := "ORD" },
       Call.serversReboot scenario.client "srv-1" osservers.RebootMethod.SoftReboot]
      [] scenario.client "srv-1" "ACTIVE" 600 rfl,
   (poll_budgets scenario.configured scenario.ready []).2.2.2
      [Call.GenerateRandomID,
       Call.AuthenticatedClient { Username := "user", APIKey := "key" },
       Call.NewComputeV2 scenario.client.Provider { Region := "ORD" },
       Call.GenerateSSHKey "/store/id_rsa", Call.ReadFile "/store/id_rsa.pub",
       Call.keypairsCreate scenario.client
         { Name := "docker-key-0123abcd", PublicKey := "ssh-rsa AAAA" },
       Call.serversCreate scenario.client scenario.created.createOpts]
      [Call.serversGet scenario.client "srv-1",
       Call.Run (scenario.created.GetSSHCommand scenario.ready (setupDocker.commands.take 1)),
       Call.Run (scenario.created.GetSSHCommand scenario.ready (setupDocker.commands.drop 1))]
      scenario.client "srv-1" "ACTIVE" 300 rfl⟩

/-- C6: when authentication succeeds and the credential step (`createSSHKey`:
key generation, reading the public key, registration) returns an error, `Create`
returns that error, no server-creation call and no remote-shell command is among
the calls it issued, and `ServerID` and `ServerIPAddr` are as before; and in
every run of `Create`, a server-creation call is issued right after a credential
registration that succeeded, and its `KeyPair` is the name that registration
returned. -/
theorem Create_credential_first (d : Driver) (env : Env) (h : List Call) :
    (∀ client err,
      (Driver.authenticate { d with Basename := env.GenerateRandomID h } env
        (h ++ [Call.GenerateRandomID])).val = .ok client →
      (Driver.createSSHKey { d with Basename := env.GenerateRandomID h } env client
        (Driver.authenticate { d with Basename := env.GenerateRandomID h } env
          (h ++ [Call.GenerateRandomID])).trace).val = some err →
      (d.Create env h).val = some err ∧
      (∃ new, (d.Create env h).trace = h ++ new ∧ (∀ c opts, Call.serversCreate c opts ∉ new) ∧
        ∀ cmd, Call.Run cmd ∉ new) ∧
      (d.Create env h).d.ServerID = d.ServerID ∧
      (d.Create env h).d.ServerIPAddr = d.ServerIPAddr) ∧
    (∀ pre post c opts,
      (d.Create env h).trace = h ++ pre ++ Call.serversCreate c opts :: post →
      ∃ pre' ko k, pre = pre' ++ [Call.keypairsCreate c ko] ∧
        env.keypairsCreate (h ++ pre') c ko = .ok k ∧ opts.KeyPair = k.Name) := by
  constructor
  · intro client err
    simp only [Driver.Create]
    have hS : ({ d with Basename := env.GenerateRandomID h } : Driver).ServerID = d.ServerID := rfl
    have hI : ({ d with Basename := env.GenerateRandomID h } : Driver).ServerIPAddr =
        d.ServerIPAddr := rfl
    generalize ({ d with Basename := env.GenerateRandomID h } : Driver) = d0 at hS hI ⊢
    have hd := authenticate_d d0 env (h ++ [Call.GenerateRandomID])
    rcases hA : d0.authenticate env (h ++ [Call.GenerateRandomID]) with ⟨v, d0', t⟩
    rw [hA] at hd
    simp only at hd
    subst hd
    intro hv hkey
    simp only at hv hkey
    subst hv
    obtain ⟨pc, ht⟩ := authenticate_ok (congrArg Outcome.val hA)
    rw [hA] at ht
    simp only at ht
    rcases createSSHKey_cases d0' env client t with
      ⟨e, hK⟩ | ⟨e, hK⟩ | ⟨e, pk, hK⟩ | ⟨pk, k, -, hK⟩
    · simp only [hK, Option.some.injEq] at hkey ⊢
      subst hkey ht
      exact ⟨rfl, ⟨_, List.append_assoc _ _ _ |>.trans (List.append_assoc _ _ _), by simp, by simp⟩,
        hS, hI⟩
    · simp only [hK, Option.some.injEq] at hkey ⊢
      subst hkey ht
      exact ⟨rfl, ⟨_, List.append_assoc _ _ _ |>.trans (List.append_assoc _ _ _), by simp, by simp⟩,
        hS, hI⟩
    · simp only [hK, Option.some.injEq] at hkey ⊢
      subst hkey ht
      exact ⟨rfl, ⟨_, List.append_assoc _ _ _ |>.trans (List.append_assoc _ _ _), by simp, by simp⟩,
        hS, hI⟩
    · rw [hK] at hkey
      simp at hkey
  · intro pre post c opts hp
    obtain ⟨ao, eo, p, q, runs, hruns, hT⟩ := Create_cases d env h
    rcases hT with hT | ⟨pc, hT | hT | hT | ⟨client, ko, hT | ⟨k, opts', hk, hd1, hT | ⟨s, hs, hT | hT⟩⟩⟩⟩
    · rw [hT] at hp
      simp [List.append_assoc, List.cons_eq_append_iff] at hp
    · rw [hT] at hp
      simp [List.append_assoc, List.cons_eq_append_iff] at hp
    · rw [hT] at hp
      simp [List.append_assoc, List.cons_eq_append_iff] at hp
    · rw [hT] at hp
      simp [List.append_assoc, List.cons_eq_append_iff] at hp
    · rw [hT] at hp
      simp [List.append_assoc, List.cons_eq_append_iff] at hp
    · rw [hT] at hp
      simp [List.append_assoc, List.cons_eq_append_iff] at hp
      obtain ⟨_, rfl, _, rfl, _, rfl, _, rfl, _, rfl, _, rfl, rfl, ⟨rfl, rfl⟩, rfl⟩ := hp
      exact ⟨[_, _, _, _, _], ko, k, by simp, hk, hd1⟩
    · rw [hT] at hp
      simp [List.append_assoc, List.cons_eq_append_iff] at hp
      obtain ⟨_, rfl, _, rfl, _, rfl, _, rfl, _, rfl, _, rfl, rfl, ⟨rfl, rfl⟩, rfl⟩ := hp
      exact ⟨[_, _, _, _, _], ko, k, by simp, hk, hd1⟩
    · rw [hT, List.append_assoc, List.append_assoc, List.append_cancel_left_eq] at hp
      have hne : Call.serversCreate c opts ∉ runs := by
        intro hm
        obtain ⟨cmd, hc⟩ := hruns _ hm
        cases hc
      obtain ⟨post', hp'⟩ := split_in_left hp hne
      simp [List.cons_eq_append_iff] at hp'
      obtain ⟨_, rfl, _, rfl, _, rfl, _, rfl, _, rfl, _, rfl, rfl, ⟨rfl, rfl⟩, rfl⟩ := hp'
      exact ⟨[_, _, _, _, _], ko, k, by simp, hk, hd1⟩

/-- C6, at two concrete runs: against a provider whose key registration
fails `Create` returns that failure and the record keeps its empty id and
address; against `ready` the server creation follows the registration of
"docker-key-0123abcd" and passes that name as `KeyPair`. -/
theorem Create_credential_first_witness :
    ((scenario.configured.Create scenario.registrationFails []).val =
        some "Key pair already exists" ∧
      (∃ new, (scenario.configured.Create scenario.registrationFails []).trace = [] ++ new ∧
        (∀ c opts, Call.serversCreate c opts ∉ new) ∧ ∀ cmd, Call.Run cmd ∉ new) ∧
      (scenario.configured.Create scenario.registrationFails []).d.ServerID = "" ∧
      (scenario.configured.Create scenario.registrationFails []).d.ServerIPAddr = "") ∧
    ∃ pre' ko k,
      [Call.GenerateRandomID,
       Call.AuthenticatedClient { Username := "user", APIKey := "key" },
       Call.NewComputeV2 scenario.client.Provider { Region := "ORD" },
       Call.GenerateSSHKey "/store/id_rsa", Call.ReadFile "/store/id_rsa.pub",
       Call.keypairsCreate scenario.client
         { Name := "docker-key-0123abcd", PublicKey := "ssh-rsa AAAA" }] =
        pre' ++ [Call.keypairsCreate scenario.client ko] ∧
      scenario.ready.keypairsCreate ([] ++ pre') scenario.client ko = .ok k ∧
      scenario.created.createOpts.KeyPair = k.Name :=
  ⟨(Create_credential_first scenario.configured scenario.registrationFails []).1
      scenario.client "Key pair already exists" rfl rfl,
   (Create_credential_first scenario.configured scenario.ready []).2
      [Call.GenerateRandomID,
       Call.AuthenticatedClient { Username := "user", APIKey := "key" },
       Call.NewComputeV2 scenario.client.Provider { Region := "ORD" },
       Call.GenerateSSHKey "/store/id_rsa", Call.ReadFile "/store/id_rsa.pub",
       Call.keypairsCreate scenario.client
         { Name := "docker-key-0123abcd", PublicKey := "ssh-rsa AAAA" }]
      [Call.WaitForStatus scenario.client "srv-1" "ACTIVE" 300,
       Call.serversGet scenario.client "srv-1",
       Call.Run (scenario.created.GetSSHCommand scenario.ready (setupDocker.commands.take 1)),
       Call.Run (scenario.created.GetSSHCommand scenario.ready (setupDocker.commands.drop 1))]
      scenario.client scenario.created.createOpts rfl⟩

/-- C2 as stated fails: against a provider whose creation call returns the id
"srv-1" and whose poll times out, `Create` returns the timeout error and the
record's `ServerID` is still empty, not "srv-1". -/
theorem Create_timeout_does_not_record_id :
    (Driver.authenticate { scenario.configured with Basename := "0123abcd" }
        scenario.pollTimesOut [Call.GenerateRandomID]).val = .ok scenario.client ∧
    (Driver.createSSHKey { scenario.configured with Basename := "0123abcd" } scenario.pollTimesOut
        scenario.client
        [Call.GenerateRandomID,
         Call.AuthenticatedClient { Username := "user", APIKey := "key" },
         Call.NewComputeV2 scenario.client.Provider { Region := "ORD" }]).val = none ∧
    scenario.pollTimesOut.serversCreate
        [Call.GenerateRandomID,
         Call.AuthenticatedClient { Username := "user", APIKey := "key" },
         Call.NewComputeV2 scenario.client.Provider { Region := "ORD" },
         Call.GenerateSSHKey "/store/id_rsa", Call.ReadFile "/store/id_rsa.pub",
         Call.keypairsCreate scenario.client
           { Name := "docker-key-0123abcd", PublicKey := "ssh-rsa AAAA" }]
        scenario.client scenario.created.createOpts =
      .ok { ID := "srv-1", Status := "BUILD", AccessIPv4 := "" } ∧
    (scenario.configured.Create scenario.pollTimesOut []).trace =
      [Call.GenerateRandomID,
       Call.AuthenticatedClient { Username := "user", APIKey := "key" },
       Call.NewComputeV2 scenario.client.Provider { Region := "ORD" },
       Call.GenerateSSHKey "/store/id_rsa", Call.ReadFile "/store/id_rsa.pub",
       Call.keypairsCreate scenario.client
         { Name := "docker-key-0123abcd", PublicKey := "ssh-rsa AAAA" },
       Call.serversCreate scenario.client scenario.created.createOpts,
       Call.WaitForStatus scenario.client "srv-1" "ACTIVE" 300] ∧
    (scenario.configured.Create scenario.pollTimesOut []).val = some "Time out in WaitFor" ∧
    (scenario.configured.Create scenario.pollTimesOut []).d.ServerID = "" ∧
    (scenario.configured.Create scenario.pollTimesOut []).d.ServerID ≠ "srv-1" :=
  ⟨rfl, rfl, rfl, rfl, rfl, rfl, by decide⟩

/-- C2, amended: when authentication, the credential step and the
server-creation call succeed and the poll for ACTIVE returns an error, `Create`
returns that error right after the poll, and `ServerID` and `ServerIPAddr` are
what they were before `Create`: the id of the created server is not recorded. -/
theorem Create_timeout_keeps_ServerID (d : Driver) (env : Env) (h : List Call)
    (client : ServiceClient) (d0 d1 : Driver) (t0 t1 : List Call) (s : osservers.Server)
    (err : Error)
    (hauth : Driver.authenticate { d with Basename := env.GenerateRandomID h } env
      (h ++ [Call.GenerateRandomID]) = ⟨.ok client, d0, t0⟩)
    (hkey : d0.createSSHKey env client t0 = ⟨none, d1, t1⟩)
    (hsrv : env.serversCreate t1 client d1.createOpts = .ok s)
    (hpoll : env.WaitForStatus (t1 ++ [Call.serversCreate client d1.createOpts]) client s.ID
      "ACTIVE" 300 = some err) :
    (d.Create env h).val = some err ∧
    (d.Create env h).d.ServerID = d.ServerID ∧
    (d.Create env h).d.ServerIPAddr = d.ServerIPAddr ∧
    (d.Create env h).trace =
      t1 ++ [Call.serversCreate client d1.createOpts,
             Call.WaitForStatus client s.ID "ACTIVE" 300] := by
  have hd0 := authenticate_d { d with Basename := env.GenerateRandomID h } env
    (h ++ [Call.GenerateRandomID])
  rw [hauth] at hd0
  simp only at hd0
  have hd1 := createSSHKey_d d0 env client t0
  rw [hkey] at hd1
  simp only at hd1
  simp only [Driver.Create, hauth, hkey, Driver.createServer, hsrv, hpoll, true_and]
  refine ⟨?_, ?_, by simp⟩
  · rw [hd1.1, hd0]
  · rw [hd1.2, hd0]

/-- C2, amended, at a concrete run: against `pollTimesOut` the error is the
timeout and the record keeps the empty `ServerID` of the configured driver. -/
theorem Create_timeout_keeps_ServerID_witness :
    (scenario.configured.Create scenario.pollTimesOut []).val = some "Time out in WaitFor" ∧
    (scenario.configured.Create scenario.pollTimesOut []).d.ServerID =
      scenario.configured.ServerID :=
  have key := Create_timeout_keeps_ServerID scenario.configured scenario.pollTimesOut []
    scenario.client { scenario.configured with Basename := "0123abcd" }
    { scenario.configured with Basename := "0123abcd", KeyPairName := "docker-key-0123abcd" }
    [Call.GenerateRandomID,
     Call.AuthenticatedClient { Username := "user", APIKey := "key" },
     Call.NewComputeV2 scenario.client.Provider { Region := "ORD" }]
    [Call.GenerateRandomID,
     Call.AuthenticatedClient { Username := "user", APIKey := "key" },
     Call.NewComputeV2 scenario.client.Provider { Region := "ORD" },
     Call.GenerateSSHKey "/store/id_rsa", Call.ReadFile "/store/id_rsa.pub",
     Call.keypairsCreate scenario.client
       { Name := "docker-key-0123abcd", PublicKey := "ssh-rsa AAAA" }]
    { ID := "srv-1", Status := "BUILD", AccessIPv4 := "" } "Time out in WaitFor"
    rfl rfl rfl rfl
  ⟨key.1, key.2.1⟩

/-- C7 as stated fails: against `detailsFail` authentication, the credential
step, the server creation and the poll succeed, and the record's `ServerID` and
`ServerIPAddr` are empty afterwards; against `noAddress` every step of `Create`
succeeds and the record's `ServerIPAddr` is empty; against `suspended` every
step of `Create` succeeds, the record holds "srv-1" and 203.0.113.5, and the
`GetState` that follows returns Paused, not Running. -/
theorem Create_success_not_always_populated_running :
    ((scenario.configured.Create scenario.detailsFail []).trace =
        [Call.GenerateRandomID,
         Call.AuthenticatedClient { Username := "user", APIKey := "key" },
         Call.NewComputeV2 scenario.client.Provider { Region := "ORD" },
         Call.GenerateSSHKey "/store/id_rsa", Call.ReadFile "/store/id_rsa.pub",
         Call.keypairsCreate scenario.client
           { Name := "docker-key-0123abcd", PublicKey := "ssh-rsa AAAA" },
         Call.serversCreate scenario.client scenario.created.createOpts,
         Call.WaitForStatus scenario.client "srv-1" "ACTIVE" 300,
         Call.serversGet scenario.client "srv-1"] ∧
      scenario.detailsFail.WaitForStatus
        ((scenario.configured.Create scenario.detailsFail []).trace.take 7)
        scenario.client "srv-1" "ACTIVE" 300 = none ∧
      (scenario.configured.Create scenario.detailsFail []).val = some "Service Unavailable" ∧
      (scenario.configured.Create scenario.detailsFail []).d.ServerID = "" ∧
      (scenario.configured.Create scenario.detailsFail []).d.ServerIPAddr = "") ∧
    ((scenario.configured.Create scenario.noAddress []).val = none ∧
      (scenario.configured.Create scenario.noAddress []).d.ServerID = "srv-1" ∧
      (scenario.configured.Create scenario.noAddress []).d.ServerIPAddr = "") ∧
    ((scenario.configured.Create scenario.suspended []).val = none ∧
      (scenario.configured.Create scenario.suspended []).d.ServerID = "srv-1" ∧
      (scenario.configured.Create scenario.suspended []).d.ServerIPAddr = "203.0.113.5" ∧
      (Driver.GetState (scenario.configured.Create scenario.suspended []).d scenario.suspended
        (scenario.configured.Create scenario.suspended []).trace).val =
        (state.State.Paused, none)) :=
  ⟨⟨rfl, rfl, rfl, rfl, rfl⟩, ⟨rfl, rfl, rfl⟩, rfl, rfl, rfl, rfl⟩

/-- C7, amended: when authentication, the credential step, the server-creation
call, the poll and the details fetch after the poll all succeed, the record
afterwards holds the `ID` and the `AccessIPv4` of the fetched details as
`ServerID` and `ServerIPAddr`, whatever the remote setup then does; and a
`GetState` that follows returns Running without error when its authentication
succeeds and its status query reports ACTIVE. -/
theorem Create_records_details (d : Driver) (env : Env) (h : List Call)
    (client : ServiceClient) (d0 d1 : Driver) (t0 t1 : List Call) (s details : osservers.Server)
    (hauth : Driver.authenticate { d with Basename := env.GenerateRandomID h } env
      (h ++ [Call.GenerateRandomID]) = ⟨.ok client, d0, t0⟩)
    (hkey : d0.createSSHKey env client t0 = ⟨none, d1, t1⟩)
    (hsrv : env.serversCreate t1 client d1.createOpts = .ok s)
    (hpoll : env.WaitForStatus (t1 ++ [Call.serversCreate client d1.createOpts]) client s.ID
      "ACTIVE" 300 = none)
    (hget : env.serversGet (t1 ++ [Call.serversCreate client d1.createOpts] ++
      [Call.WaitForStatus client s.ID "ACTIVE" 300]) client s.ID = .ok details) :
    (d.Create env h).d.ServerID = details.ID ∧
    (d.Create env h).d.ServerIPAddr = details.AccessIPv4 ∧
    ∀ client' current,
      (Driver.authenticate (d.Create env h).d env (d.Create env h).trace).val = .ok client' →
      env.serversGet (Driver.authenticate (d.Create env h).d env (d.Create env h).trace).trace
        client' details.ID = .ok current →
      current.Status = "ACTIVE" →
      (Driver.GetState (d.Create env h).d env (d.Create env h).trace).val =
        (state.State.Running, none) := by
  have hD : (d.Create env h).d =
      { d1 with ServerID := details.ID, ServerIPAddr := details.AccessIPv4 } := by
    have hr := (runCommands_spec
      { d1 with ServerID := details.ID, ServerIPAddr := details.AccessIPv4 } env
      setupDocker.commands
      (t1 ++ [Call.serversCreate client d1.createOpts] ++
        [Call.WaitForStatus client s.ID "ACTIVE" 300] ++ [Call.serversGet client s.ID])).1
    simp only [Driver.Create, hauth, hkey, Driver.createServer, hsrv, hpoll, hget,
      Driver.setupDocker]
    rw [← hr]
    split <;> simp_all
  have hID : (d.Create env h).d.ServerID = details.ID := by rw [hD]
  refine ⟨hID, by rw [hD], ?_⟩
  intro client' current hv hg hs
  rw [← hID] at hg
  rw [GetState_ok hv hg, normalizedState_eq, hs]
  rfl

/-- C7, amended, at a concrete run against `ready`: the record holds "srv-1"
and 203.0.113.5, and the `GetState` that follows returns Running. -/
theorem Create_records_details_witness :
    (scenario.configured.Create scenario.ready []).d.ServerID = "srv-1" ∧
    (scenario.configured.Create scenario.ready []).d.ServerIPAddr = "203.0.113.5" ∧
    (Driver.GetState (scenario.configured.Create scenario.ready []).d scenario.ready
      (scenario.configured.Create scenario.ready []).trace).val = (state.State.Running, none) :=
  have key := Create_records_details scenario.configured scenario.ready []
    scenario.client { scenario.configured with Basename := "0123abcd" }
    { scenario.configured with Basename := "0123abcd", KeyPairName := "docker-key-0123abcd" }
    [Call.GenerateRandomID,
     Call.AuthenticatedClient { Username := "user", APIKey := "key" },
     Call.NewComputeV2 scenario.client.Provider { Region := "ORD" }]
    [Call.GenerateRandomID,
     Call.AuthenticatedClient { Username := "user", APIKey := "key" },
     Call.NewComputeV2 scenario.client.Provider { Region := "ORD" },
     Call.GenerateSSHKey "/store/id_rsa", Call.ReadFile "/store/id_rsa.pub",
     Call.keypairsCreate scenario.client
       { Name := "docker-key-0123abcd", PublicKey := "ssh-rsa AAAA" }]
    { ID := "srv-1", Status := "BUILD", AccessIPv4 := "" } scenario.server
    rfl rfl rfl rfl rfl
  ⟨key.1, key.2.1, key.2.2 scenario.client scenario.server rfl rfl rfl⟩

/-- C3 as stated fails: on a configured driver whose `ServerID` is empty,
against `ready`, `GetState` queries the server "" and returns Running without
error, `Restart` reboots and polls the server "" and returns nil, and `Remove`
deletes the server "" and returns nil. -/
theorem empty_ServerID_not_rejected :
    scenario.configured.ServerID = "" ∧
    (scenario.configured.GetState scenario.ready []).val = (state.State.Running, none) ∧
    (scenario.configured.GetState scenario.ready []).trace =
      [Call.AuthenticatedClient { Username := "user", APIKey := "key" },
       Call.NewComputeV2 scenario.client.Provider { Region := "ORD" },
       Call.serversGet scenario.client ""] ∧
    (scenario.configured.Restart scenario.ready []).val = none ∧
    (scenario.configured.Restart scenario.ready []).trace =
      [Call.AuthenticatedClient { Username := "user", APIKey := "key" },
       Call.NewComputeV2 scenario.client.Provider { Region := "ORD" },
       Call.serversReboot scenario.client "" osservers.RebootMethod.SoftReboot,
       Call.WaitForStatus scenario.client "" "ACTIVE" 600] ∧
    (scenario.configured.Remove scenario.ready []).val = none ∧
    (scenario.configured.Remove scenario.ready []).trace =
      [Call.AuthenticatedClient { Username := "user", APIKey := "key" },
       Call.NewComputeV2 scenario.client.Provider { Region := "ORD" },
       Call.serversDelete scenario.client "",
       Call.keypairsDelete scenario.client ""] :=
  ⟨rfl, rfl, rfl, rfl, rfl, rfl, rfl⟩

/-- C3, amended: on a record whose `ServerID` is empty, `GetState`, `Restart`
and `Remove` do not check the id.  When authentication fails each returns the
authentication error and issues nothing beyond the authentication calls.  When
authentication succeeds each issues its server-level request for the id "" right
after the authentication calls, and returns an error exactly when one of the
provider calls it makes returns one. -/
theorem empty_ServerID_is_passed_on (d : Driver) (env : Env) (h : List Call)
    (hid : d.ServerID = "") :
    (∀ err, (d.authenticate env h).val = .error err →
      (d.GetState env h).val = (state.State.None, some err) ∧
      (d.Restart env h).val = some err ∧ (d.Remove env h).val = some err ∧
      (d.GetState env h).trace = (d.authenticate env h).trace ∧
      (d.Restart env h).trace = (d.authenticate env h).trace ∧
      (d.Remove env h).trace = (d.authenticate env h).trace) ∧
    (∀ client, (d.authenticate env h).val = .ok client →
      (d.GetState env h).trace = (d.authenticate env h).trace ++ [Call.serversGet client ""] ∧
      (∃ rest, (d.Restart env h).trace =
        (d.authenticate env h).trace ++
          Call.serversReboot client "" osservers.RebootMethod.SoftReboot :: rest) ∧
      (∃ rest, (d.Remove env h).trace =
        (d.authenticate env h).trace ++ Call.serversDelete client "" :: rest) ∧
      ((d.GetState env h).val.2 = none ↔
        ∃ current, env.serversGet (d.authenticate env h).trace client "" = .ok current) ∧
      ((d.Restart env h).val = none ↔
        env.serversReboot (d.authenticate env h).trace client ""
            osservers.RebootMethod.SoftReboot = none ∧
          env.WaitForStatus ((d.authenticate env h).trace ++
            [Call.serversReboot client "" osservers.RebootMethod.SoftReboot]) client ""
            "ACTIVE" 600 = none) ∧
      ((d.Remove env h).val = none ↔
        env.serversDelete (d.authenticate env h).trace client "" = none ∧
          env.keypairsDelete ((d.authenticate env h).trace ++ [Call.serversDelete client ""])
            client d.KeyPairName = none)) := by
  have hd := authenticate_d d env h
  rcases hA : d.authenticate env h with ⟨v, d', t⟩
  rw [hA] at hd
  simp only at hd
  subst hd
  constructor
  · intro err hv
    simp only at hv
    subst hv
    simp [Driver.GetState, Driver.Restart, Driver.Remove, hA]
  · intro client hv
    simp only at hv
    subst hv
    simp only [Driver.GetState, Driver.Restart, Driver.Remove, hA, hid]
    refine ⟨?_, ?_, ?_, ?_, ?_, ?_⟩
    · cases env.serversGet t client "" with
      | error e => rfl
      | ok current => simp only; split_ifs <;> rfl
    · cases env.serversReboot t client "" osservers.RebootMethod.SoftReboot with
      | some e => exact ⟨[], rfl⟩
      | none =>
        simp only
        cases env.WaitForStatus (t ++ [Call.serversReboot client ""
          osservers.RebootMethod.SoftReboot]) client "" "ACTIVE" 600 <;>
          exact ⟨[Call.WaitForStatus client "" "ACTIVE" 600], by simp⟩
    · cases env.serversDelete t client "" with
      | some e => exact ⟨[], rfl⟩
      | none =>
        simp only
        cases env.keypairsDelete (t ++ [Call.serversDelete client ""]) client d'.KeyPairName <;>
          exact ⟨[Call.keypairsDelete client d'.KeyPairName], by simp⟩
    · cases env.serversGet t client "" with
      | error e => simp
      | ok current => simp only; split_ifs <;> simp
    · cases env.serversReboot t client "" osservers.RebootMethod.SoftReboot with
      | some e => simp
      | none =>
        simp only
        cases env.WaitForStatus (t ++ [Call.serversReboot client ""
          osservers.RebootMethod.SoftReboot]) client "" "ACTIVE" 600 <;> simp
    · cases env.serversDelete t client "" with
      | some e => simp
      | none =>
        simp only
        cases env.keypairsDelete (t ++ [Call.serversDelete client ""]) client d'.KeyPairName <;>
          simp

/-- C3, amended, at a concrete run: on the configured driver, whose id is
empty, `GetState` against `ready` issues the status query for "". -/
theorem empty_ServerID_is_passed_on_witness :
    scenario.configured.ServerID = "" ∧
    (scenario.configured.GetState scenario.ready []).trace =
      (scenario.configured.authenticate scenario.ready []).trace ++
        [Call.serversGet scenario.client ""] :=
  ⟨rfl, ((empty_ServerID_is_passed_on scenario.configured scenario.ready [] rfl).2
    scenario.client rfl).1⟩

end rackspace
